import Mathlib

/-!
Verification of the client-side script of `sandbox-tools` against its
specification.  The repository ships two near-identical revisions of the same
script, `src/static/app.js` and `src/unnamed/part_000`; each defines five
(resp. four) DOM event handlers that issue `fetch` requests and write the
responses into page elements.  We embed the handlers shallowly: the DOM reads
(field values, the dropdown's option list, the entry-table rows) become
explicit arguments, the settled outcome of each `fetch(...).then(...).json()`
chain becomes an `Except Unit` argument (`.error` models a rejected fetch or a
JSON-parse failure of the response body), and each handler returns the
requests it issued together with the DOM writes and console logs its promise
chain performs once settled.
-/

/-! ## JSON values

A JSON value as produced by `JSON.parse` / consumed by `JSON.stringify`.
Numbers are restricted to integers, which covers every value the script and
its specification mention (`min_roll`, `max_roll` are roll bounds). -/

inductive Json where
  | null : Json
  | bool (b : Bool) : Json
  | num (n : Int) : Json
  | str (s : String) : Json
  | arr (elems : List Json) : Json
  | obj (fields : List (String × Json)) : Json
  deriving Repr

/-- String-content escaping done by `JSON.stringify`: quotes and backslashes
are escaped.  (Control-character escapes are irrelevant to the inputs the
claims evaluate and are left as-is.) -/
def escapeChar (c : Char) : String :=
  if c = '"' then "\\\"" else if c = '\\' then "\\\\" else String.singleton c

def escapeString (s : String) : String :=
  String.join (s.data.map escapeChar)

mutual

/-- `JSON.stringify` on the modelled value fragment.  On acyclic, BigInt-free
values `JSON.stringify` always returns a string, so it is total here. -/
def stringify : Json → String
  | .null => "null"
  | .bool true => "true"
  | .bool false => "false"
  | .num n => toString n
  | .str s => "\"" ++ escapeString s ++ "\""
  | .arr xs => "[" ++ stringifyElems xs ++ "]"
  | .obj fs => "\x7b" ++ stringifyFields fs ++ "\x7d"
termination_by structural v => v

def stringifyElems : List Json → String
  | [] => ""
  | [v] => stringify v
  | v :: w :: vs => stringify v ++ "," ++ stringifyElems (w :: vs)
termination_by structural vs => vs

def stringifyFields : List (String × Json) → String
  | [] => ""
  | [(k, v)] => "\"" ++ escapeString k ++ "\":" ++ stringify v
  | (k, v) :: f :: fs =>
      "\"" ++ escapeString k ++ "\":" ++ stringify v ++ "," ++ stringifyFields (f :: fs)
termination_by structural fs => fs

end

/-! ## JavaScript string coercion

`String(v)`, as performed by template-literal interpolation and by
`textContent` assignment of a non-string value: arrays stringify by joining
their elements with `","` (a `null` element joins as the empty string),
objects become `"[object Object]"`. -/

mutual

def jsString : Json → String
  | .null => "null"
  | .bool true => "true"
  | .bool false => "false"
  | .num n => toString n
  | .str s => s
  | .arr xs => jsJoin xs
  | .obj _ => "[object Object]"
termination_by structural v => v

def jsJoin : List Json → String
  | [] => ""
  | [.null] => ""
  | [v] => jsString v
  | .null :: w :: vs => "," ++ jsJoin (w :: vs)
  | v :: w :: vs => jsString v ++ "," ++ jsJoin (w :: vs)
termination_by structural vs => vs

end

/-- Template-literal interpolation of a possibly-absent object property
(`undefined` interpolates as the string `"undefined"`). -/
def tmpl : Option Json → String
  | none => "undefined"
  | some v => jsString v

/-- Assignment of a JavaScript value to `innerText`/`textContent`: both IDL
attributes are `[LegacyNullToEmptyString]`, so `null` writes the empty string;
`undefined` writes `"undefined"`; other values coerce via `String(v)`. -/
def domSet : Option Json → String
  | none => "undefined"
  | some .null => ""
  | some v => jsString v

/-- Property lookup on a parsed JSON value (`data.result`, `data.message`).
`none` models `undefined` (missing property, or access on a non-object).
`JSON.parse` assigns duplicate keys in order, so the last binding wins. -/
def lookupField : List (String × Json) → String → Option Json
  | [], _ => none
  | (k, v) :: fs, key =>
      match lookupField fs key with
      | some w => some w
      | none => if k = key then some v else none

def Json.getField : Json → String → Option Json
  | .obj fs, key => lookupField fs key
  | _, _ => none

/-! ## `JSON.parse`

A functional recursive-descent parser for the fragment above, modelling
`JSON.parse`; `none` models a thrown `SyntaxError`.  Recursion is fuelled by
the input length.  Number syntax is restricted to optionally-signed integers
and string escapes to `\"` and `\\`, matching the value fragment. -/

def skipWs : List Char → List Char
  | [] => []
  | c :: cs => if c = ' ' ∨ c = '\n' ∨ c = '\t' ∨ c = '\r' then skipWs cs else c :: cs

def parseStringRest : List Char → Option (String × List Char)
  | [] => none
  | '"' :: rest => some ("", rest)
  | '\\' :: c :: rest =>
      if c = '"' ∨ c = '\\' then
        (parseStringRest rest).map (fun p => (String.singleton c ++ p.1, p.2))
      else none
  | c :: rest => (parseStringRest rest).map (fun p => (String.singleton c ++ p.1, p.2))

def takeDigits : List Char → List Char × List Char
  | [] => ([], [])
  | c :: cs =>
      if c.isDigit then
        let p := takeDigits cs
        (c :: p.1, p.2)
      else ([], c :: cs)

def digitsToNat (ds : List Char) : Nat :=
  ds.foldl (fun acc c => acc * 10 + (c.toNat - 48)) 0

def parseIntLit : List Char → Option (Int × List Char)
  | '-' :: cs =>
      match takeDigits cs with
      | ([], _) => none
      | (ds, rest) => some (-(digitsToNat ds : Int), rest)
  | cs =>
      match takeDigits cs with
      | ([], _) => none
      | (ds, rest) => some ((digitsToNat ds : Int), rest)

mutual

def parseValue : Nat → List Char → Option (Json × List Char)
  | 0, _ => none
  | fuel + 1, cs =>
      match skipWs cs with
      | 'n' :: 'u' :: 'l' :: 'l' :: rest => some (.null, rest)
      | 't' :: 'r' :: 'u' :: 'e' :: rest => some (.bool true, rest)
      | 'f' :: 'a' :: 'l' :: 's' :: 'e' :: rest => some (.bool false, rest)
      | '"' :: rest => (parseStringRest rest).map (fun p => (.str p.1, p.2))
      | '[' :: rest =>
          (match skipWs rest with
           | ']' :: rest2 => some (.arr [], rest2)
           | body => (parseElems fuel body).map (fun p => (.arr p.1, p.2)))
      | '\x7b' :: rest =>
          (match skipWs rest with
           | '\x7d' :: rest2 => some (.obj [], rest2)
           | body => (parseMembers fuel body).map (fun p => (.obj p.1, p.2)))
      | other => (parseIntLit other).map (fun p => (.num p.1, p.2))
termination_by structural fuel => fuel

def parseElems : Nat → List Char → Option (List Json × List Char)
  | 0, _ => none
  | fuel + 1, cs =>
      match parseValue fuel cs with
      | none => none
      | some (v, rest) =>
          match skipWs rest with
          | ',' :: rest2 => (parseElems fuel rest2).map (fun p => (v :: p.1, p.2))
          | ']' :: rest2 => some ([v], rest2)
          | _ => none
termination_by structural fuel => fuel

def parseMembers : Nat → List Char → Option (List (String × Json) × List Char)
  | 0, _ => none
  | fuel + 1, cs =>
      match skipWs cs with
      | '"' :: rest =>
          (match parseStringRest rest with
           | none => none
           | some (k, rest2) =>
               match skipWs rest2 with
               | ':' :: rest3 =>
                   (match parseValue fuel rest3 with
                    | none => none
                    | some (v, rest4) =>
                        match skipWs rest4 with
                        | ',' :: rest5 =>
                            (parseMembers fuel rest5).map (fun p => ((k, v) :: p.1, p.2))
                        | '\x7d' :: rest5 => some ([(k, v)], rest5)
                        | _ => none)
               | _ => none)
      | _ => none
termination_by structural fuel => fuel

end

/-- `JSON.parse` on a whole input string: the parsed value when the input is a
single JSON value (with surrounding whitespace), `none` on a syntax error. -/
def parseJson (s : String) : Option Json :=
  match parseValue (s.length + 1) s.data with
  | none => none
  | some (v, rest) => if skipWs rest = [] then some v else none

/-! ## Requests, promise chains, DOM state -/

/-- A network request as issued by `fetch`: the `addTable` handler passes a
method, a `Content-Type` header and a body; the GET handlers pass the URL
alone. -/
structure Request where
  method : String
  url : String
  contentType : Option String := none
  body : Option String := none
  deriving Repr, DecidableEq

/-- Settling of `p.then(onFulfilled).catch(onRejected)`: a rejection of `p`
(or of an earlier stage folded into `p`) reaches `onRejected`, so the chain
itself always settles fulfilled.  A result of `.error` would model a rejection
escaping the handler uncaught; with a `.catch` stage present it never
occurs. -/
def thenCatch (p : Except Unit α) (onFulfilled : α → β) (onRejected : Unit → β) :
    Except Unit β :=
  match p with
  | .ok a => .ok (onFulfilled a)
  | .error e => .ok (onRejected e)

/-- Settling of `p.then(onFulfilled).catch(onRejected)` when the fulfilled
callback may itself throw (modelled by an `Except` result): a rejection of
`p` and a throw inside `onFulfilled` both reach `onRejected`, so the chain
still always settles fulfilled. -/
def thenTryCatch (p : Except Unit α) (onFulfilled : α → Except Unit β)
    (onRejected : Unit → β) : Except Unit β :=
  match p with
  | .ok a =>
      match onFulfilled a with
      | .ok b => .ok b
      | .error e => .ok (onRejected e)
  | .error e => .ok (onRejected e)

/-- Property access on a parsed response body (`data.message`,
`data.result`): on `null` it throws a `TypeError` (`.error`); on any other
value it yields the property, `none` modelling `undefined` (missing property,
or access on a boxed primitive).  `response.json()` can never resolve to
`undefined`, so `null` is the only throwing body. -/
def getProp (data : Json) (key : String) : Except Unit (Option Json) :=
  match data with
  | .null => .error ()
  | d => .ok (d.getField key)

instance [DecidableEq ε] [DecidableEq α] : DecidableEq (Except ε α) := fun
  | .ok a, .ok b =>
      if h : a = b then .isTrue (by rw [h]) else .isFalse (by simp [h])
  | .ok _, .error _ => .isFalse (by simp)
  | .error _, .ok _ => .isFalse (by simp)
  | .error e, .error f =>
      if h : e = f then .isTrue (by rw [h]) else .isFalse (by simp [h])

/-- JavaScript truthiness of a string (`if (tableName)`): only the empty
string is falsy. -/
def jsTruthy (s : String) : Bool :=
  s ≠ ""

/-- An `<option>` element of the `tableName` dropdown: `option.value` and
`option.textContent`. -/
structure DropOption where
  value : String
  text : String
  deriving Repr, DecidableEq

/-- Final state written by a draw-style chain: the text of the `result`
element, and whether `console.error` ran. -/
structure ChainText where
  resultText : String
  errorLogged : Bool
  deriving Repr, DecidableEq

/-- Final state written by the `populateTableDropdown` chain: the dropdown's
option list, and whether `console.error` ran. -/
structure PopChain where
  dropdown : List DropOption
  errorLogged : Bool
  deriving Repr, DecidableEq

/-- Final state written by the `addTable` fetch chain: the `result` text,
whether `console.error` ran, and — when the response was successful — the
invocation of `populateTableDropdown` (its GET request and settled chain). -/
structure AddChain where
  resultText : String
  errorLogged : Bool
  refresh : Option (Request × Except Unit PopChain)
  deriving Repr, DecidableEq

/-- Outcome of the `addTable` handler.  `posted` is the normal path: the POST
was issued and the chain settled.  `threw` is the `catch (e)` path, taken only
if the `try` block throws synchronously before `fetch` is called; it writes
`'Invalid format'` and issues no request. -/
inductive AddOutcome where
  | posted (request : Request) (chain : Except Unit AddChain) : AddOutcome
  | threw (resultText : String) (errorLogged : Bool) : AddOutcome
  deriving Repr, DecidableEq

/-- All requests the `addTable` handler caused, the dropdown refresh's GET
included. -/
def AddOutcome.allRequests : AddOutcome → List Request
  | .threw _ _ => []
  | .posted r (.error _) => [r]
  | .posted r (.ok c) =>
      r :: (match c.refresh with
            | none => []
            | some (req, _) => [req])

/-- Whether the handler took the `catch (e)` path and wrote the fixed
invalid-format message. -/
def AddOutcome.renderedInvalid : AddOutcome → Bool
  | .threw s _ => s == "Invalid format"
  | .posted _ _ => false

/-- One row of a `/table_entries` response, at the interface shape of §6:
`\x7b min_roll, max_roll, target \x7d`. -/
structure TableEntry where
  min_roll : Int
  max_roll : Int
  target : Json
  deriving Repr

/-- One rendered `<tr>` of the entry table: the roll cell's text and the
target cell's text. -/
structure EntryRow where
  rollText : String
  targetText : String
  deriving Repr, DecidableEq

/-- Final state written by the `fetchTableEntries` chain: the entry-table
rows, the `entryList` error text if any, and whether `console.error` ran. -/
structure EntriesChain where
  rows : List EntryRow
  entryListError : Option String
  errorLogged : Bool
  deriving Repr, DecidableEq

/-- Outcome of the `fetchTableEntries` handler: `skipped` when the empty-name
guard fails (no request, rows unchanged), otherwise the GET request and its
settled chain. -/
inductive EntriesOutcome where
  | skipped (rows : List EntryRow) : EntriesOutcome
  | fetched (request : Request) (chain : Except Unit EntriesChain) : EntriesOutcome
  deriving Repr, DecidableEq

/-! ## JavaScript array sort order

`data.tables.sort()` with no comparator sorts strings ascending by comparing
their code-unit sequences lexicographically; `Array.prototype.sort` is
required to be stable, so the result is the stable lexicographic sort,
computed here with `List.mergeSort`.  (Code points and UTF-16 code units
order identically on the basic multilingual plane.) -/

def codeUnitsLe : List Char → List Char → Bool
  | [], _ => true
  | _ :: _, [] => false
  | a :: as, b :: bs =>
      if a.toNat < b.toNat then true
      else if b.toNat < a.toNat then false
      else codeUnitsLe as bs

/-- The default JavaScript string sort order as a boolean comparison. -/
def jsLeb (a b : String) : Bool :=
  codeUnitsLe a.data b.data

/-! ## Revision `src/static/app.js`

Handlers transcribed from `src/static/app.js` (the revision that sorts the
dropdown and renders the entry table).  `populateTableDropdown` is defined
before `addTable` because JavaScript hoisting lets the source call it
forward. -/

namespace appjs

/-- `drawFromTable` (src/static/app.js:2-13): GET `/draw/$\x7btableName\x7d`;
on success write `Result: $\x7bdata.result\x7d` to `result`; on rejection —
a failed fetch, a body that does not parse, or the `TypeError` the
interpolation of `data.result` throws on a `null` body — log and write the
fixed error string. -/
def drawFromTable (tableName : String) (fetched : Except Unit Json) :
    Request × Except Unit ChainText :=
  (⟨"GET", "/draw/" ++ tableName, none, none⟩,
   thenTryCatch fetched
     (fun data =>
       (getProp data "result").map (fun r => ⟨"Result: " ++ tmpl r, false⟩))
     (fun _ => ⟨"Error fetching data", true⟩))

/-- `formattedDrawFromTable` (src/static/app.js:15-26): as `drawFromTable`
but GET `/formatted_draw/$\x7btableName\x7d` and prefix `Formatted Result:`. -/
def formattedDrawFromTable (tableName : String) (fetched : Except Unit Json) :
    Request × Except Unit ChainText :=
  (⟨"GET", "/formatted_draw/" ++ tableName, none, none⟩,
   thenTryCatch fetched
     (fun data =>
       (getProp data "result").map
         (fun r => ⟨"Formatted Result: " ++ tmpl r, false⟩))
     (fun _ => ⟨"Error fetching data", true⟩))

/-- `populateTableDropdown` (src/static/app.js:53-69): GET `/tables`; on
success clear the dropdown and append one option per name of
`data.tables.sort()`, with `option.value` and `option.textContent` both the
name; on rejection log only.  `fetched` is the settled `/tables` chain at the
interface shape of §6 (`\x7b tables: string[] \x7d`). -/
def populateTableDropdown (dropdown : List DropOption)
    (fetched : Except Unit (List String)) : Request × Except Unit PopChain :=
  (⟨"GET", "/tables", none, none⟩,
   thenCatch fetched
     (fun tables =>
       ⟨(List.mergeSort tables jsLeb).map (fun t => ⟨t, t⟩), false⟩)
     (fun _ => ⟨dropdown, true⟩))

/-- The POST issued by `addTable`: method `POST`, header
`Content-Type: application/json`, body
`JSON.stringify(\x7b table: tableData \x7d)` — the raw text of the `tableJson`
field, not a parsed value. -/
def addTablePost (tableData : String) : Request :=
  ⟨"POST", "/addTable", some "application/json",
   some (stringify (Json.obj [("table", Json.str tableData)]))⟩

/-- The body of the `try` block of `addTable`: building the request body.
`JSON.stringify` throws only on cyclic values or BigInt; on
`\x7b table: <string> \x7d` it is total, so this never returns `.error` — the
source's `catch (e)` branch is dead code. -/
def addTableTryBody (tableData : String) : Except Unit String :=
  .ok (stringify (Json.obj [("table", Json.str tableData)]))

/-- `addTable` (src/static/app.js:28-51): inside a `try`, POST the raw
`tableJson` text to `/addTable`; on success write `data.message` to `result`
and then invoke `populateTableDropdown`; on rejection — a failed fetch, an
unparsable body, or the `TypeError` that `data.message` throws on a `null`
body — log and write `'Error adding table'` (and no refresh happens); if the
`try` block throws synchronously, log and write `'Invalid format'`. -/
def addTable (tableData : String) (fetched : Except Unit Json)
    (tablesFetched : Except Unit (List String)) (dropdown : List DropOption) :
    AddOutcome :=
  match addTableTryBody tableData with
  | .error _ => .threw "Invalid format" true
  | .ok body =>
      .posted ⟨"POST", "/addTable", some "application/json", some body⟩
        (thenTryCatch fetched
          (fun data =>
            (getProp data "message").map (fun m =>
              ⟨domSet m, false,
               some (populateTableDropdown dropdown tablesFetched)⟩))
          (fun _ => ⟨"Error adding table", true, none⟩))

/-- The row built for one entry (src/static/app.js:90-101): the roll cell is
`entry.min_roll` when `min_roll === max_roll`, else the template string
`` `$\x7bentry.min_roll\x7d-$\x7bentry.max_roll\x7d` ``; the target cell is
`entry.target`; both via `textContent` assignment.  The `type` cell is
commented out in the source and not built. -/
def renderEntry (entry : TableEntry) : EntryRow :=
  ⟨if entry.min_roll = entry.max_roll then toString entry.min_roll
    else toString entry.min_roll ++ "-" ++ toString entry.max_roll,
   domSet (some entry.target)⟩

/-- `fetchTableEntries` (src/static/app.js:78-109): guarded by
`if (tableName)`; GET `/table_entries/$\x7btableName\x7d`; on success clear
`entryTableBody` and append one row per entry; on rejection log and write the
fixed error string into `entryList`.  `fetched` is the settled chain at the
interface shape of §6 (`\x7b entries: ... \x7d`). -/
def fetchTableEntries (tableName : String)
    (fetched : Except Unit (List TableEntry)) (rows : List EntryRow) :
    EntriesOutcome :=
  if jsTruthy tableName then
    .fetched ⟨"GET", "/table_entries/" ++ tableName, none, none⟩
      (thenCatch fetched
        (fun entries => ⟨entries.map renderEntry, none, false⟩)
        (fun _ => ⟨rows, some "Error fetching data", true⟩))
  else .skipped rows

end appjs

/-! ## Revision `src/unnamed/part_000`

Handlers transcribed from `src/unnamed/part_000`: identical to
`src/static/app.js` except that `populateTableDropdown` renders `data.tables`
in server order (no `.sort()`), and there is no `fetchTableEntries`. -/

namespace part000

/-- `drawFromTable` (src/unnamed/part_000:2-13); a `null` body throws at
`data.result` and is handled by the catch stage, as in the other revision. -/
def drawFromTable (tableName : String) (fetched : Except Unit Json) :
    Request × Except Unit ChainText :=
  (⟨"GET", "/draw/" ++ tableName, none, none⟩,
   thenTryCatch fetched
     (fun data =>
       (getProp data "result").map (fun r => ⟨"Result: " ++ tmpl r, false⟩))
     (fun _ => ⟨"Error fetching data", true⟩))

/-- `formattedDrawFromTable` (src/unnamed/part_000:15-26). -/
def formattedDrawFromTable (tableName : String) (fetched : Except Unit Json) :
    Request × Except Unit ChainText :=
  (⟨"GET", "/formatted_draw/" ++ tableName, none, none⟩,
   thenTryCatch fetched
     (fun data =>
       (getProp data "result").map
         (fun r => ⟨"Formatted Result: " ++ tmpl r, false⟩))
     (fun _ => ⟨"Error fetching data", true⟩))

/-- `populateTableDropdown` (src/unnamed/part_000:53-69): as the
`src/static/app.js` revision but iterating `data.tables` directly, without
`.sort()`. -/
def populateTableDropdown (dropdown : List DropOption)
    (fetched : Except Unit (List String)) : Request × Except Unit PopChain :=
  (⟨"GET", "/tables", none, none⟩,
   thenCatch fetched
     (fun tables => ⟨tables.map (fun t => ⟨t, t⟩), false⟩)
     (fun _ => ⟨dropdown, true⟩))

/-- The body of the `try` block of `addTable` (src/unnamed/part_000:30-37);
total for the same reason as in the other revision. -/
def addTableTryBody (tableData : String) : Except Unit String :=
  .ok (stringify (Json.obj [("table", Json.str tableData)]))

/-- `addTable` (src/unnamed/part_000:28-51): textually identical to the
`src/static/app.js` revision — including the `TypeError` a `null` body makes
`data.message` throw into the catch stage — but the refresh invokes this
revision's `populateTableDropdown`. -/
def addTable (tableData : String) (fetched : Except Unit Json)
    (tablesFetched : Except Unit (List String)) (dropdown : List DropOption) :
    AddOutcome :=
  match addTableTryBody tableData with
  | .error _ => .threw "Invalid format" true
  | .ok body =>
      .posted ⟨"POST", "/addTable", some "application/json", some body⟩
        (thenTryCatch fetched
          (fun data =>
            (getProp data "message").map (fun m =>
              ⟨domSet m, false,
               some (populateTableDropdown dropdown tablesFetched)⟩))
          (fun _ => ⟨"Error adding table", true, none⟩))

end part000

/-! ## Observation helpers for statements -/

/-- The dropdown written by a settled `populateTableDropdown` chain (empty for
the never-occurring uncaught case). -/
def chainDropdown : Except Unit PopChain → List DropOption
  | .ok c => c.dropdown
  | .error _ => []

/-- The requests issued by a `fetchTableEntries` invocation. -/
def EntriesOutcome.requests : EntriesOutcome → List Request
  | .skipped _ => []
  | .fetched r _ => [r]

/-! ## Order lemmas for the JavaScript sort comparison -/

theorem codeUnitsLe_total : ∀ as bs, (codeUnitsLe as bs || codeUnitsLe bs as) = true
  | [], bs => by simp [codeUnitsLe]
  | a :: as, [] => by simp [codeUnitsLe]
  | a :: as, b :: bs => by
      simp only [codeUnitsLe]
      by_cases h1 : a.toNat < b.toNat
      · simp [h1]
      · by_cases h2 : b.toNat < a.toNat
        · simp [h1, h2]
        · simp [h1, h2, codeUnitsLe_total as bs]

theorem codeUnitsLe_trans :
    ∀ as bs cs, codeUnitsLe as bs = true → codeUnitsLe bs cs = true →
      codeUnitsLe as cs = true
  | [], _, _ => by intros; simp [codeUnitsLe]
  | a :: as, [], _ => by intro h _; simp [codeUnitsLe] at h
  | a :: as, b :: bs, [] => by intro _ h; simp [codeUnitsLe] at h
  | a :: as, b :: bs, c :: cs => by
      intro h1 h2
      simp only [codeUnitsLe] at h1 h2 ⊢
      rcases Nat.lt_trichotomy a.toNat b.toNat with hab | hab | hab
      · rcases Nat.lt_trichotomy b.toNat c.toNat with hbc | hbc | hbc
        · simp [show a.toNat < c.toNat by omega]
        · simp [show a.toNat < c.toNat by omega]
        · simp [show ¬ b.toNat < c.toNat by omega, hbc] at h2
      · rcases Nat.lt_trichotomy b.toNat c.toNat with hbc | hbc | hbc
        · simp [show a.toNat < c.toNat by omega]
        · simp only [show ¬ a.toNat < b.toNat by omega, if_false, if_neg,
            show ¬ b.toNat < a.toNat by omega] at h1
          simp only [show ¬ b.toNat < c.toNat by omega, if_false, if_neg,
            show ¬ c.toNat < b.toNat by omega] at h2
          simp only [show ¬ a.toNat < c.toNat by omega, if_false, if_neg,
            show ¬ c.toNat < a.toNat by omega]
          exact codeUnitsLe_trans as bs cs h1 h2
        · simp [show ¬ b.toNat < c.toNat by omega, hbc] at h2
      · simp [show ¬ a.toNat < b.toNat by omega, hab] at h1

theorem jsLeb_total (a b : String) : (jsLeb a b || jsLeb b a) = true :=
  codeUnitsLe_total a.data b.data

theorem jsLeb_trans (a b c : String) (h1 : jsLeb a b = true) (h2 : jsLeb b c = true) :
    jsLeb a c = true :=
  codeUnitsLe_trans a.data b.data c.data h1 h2

/-! ## Claims -/

/-- C1 (counterexample): `"[1,2]"` is valid JSON parsing to the array
`[1,2]`, yet the body `addTable` POSTs for it is the serialization of
`\x7b table: "[1,2]" \x7d` — the raw string — which differs from the
serialization of `\x7b table: [1,2] \x7d`, the parsed value the claim
asserts. -/
theorem claim_C1_counterexample :
    parseJson "[1,2]" = some (Json.arr [Json.num 1, Json.num 2]) ∧
    (appjs.addTable "[1,2]" (.ok (Json.obj [("message", Json.str "Table added")]))
        (.ok []) []).allRequests.map Request.body =
      [some (stringify (Json.obj [("table", Json.str "[1,2]")])), none] ∧
    stringify (Json.obj [("table", Json.str "[1,2]")]) ≠
      stringify (Json.obj [("table", Json.arr [Json.num 1, Json.num 2])]) :=
  ⟨rfl, rfl, by decide⟩

/-- C1 (amended): for every text submitted through the table-creation form —
JSON-validity plays no role, the text is never parsed — `addTable` issues
exactly one POST to `/addTable`, whose body is the serialization of
`\x7b "table": <raw text string> \x7d`; when the server responds successfully
with a non-`null` JSON body it writes `data.message` and re-invokes the
`/tables` list fetch (`populateTableDropdown`); on a `null` body the access
to `data.message` throws, the catch path renders the request-failure message,
and no refresh happens. -/
theorem claim_C1 (tableData : String) (d : Json)
    (tablesFetched : Except Unit (List String)) (dropdown : List DropOption)
    (hd : d ≠ Json.null) :
    appjs.addTable tableData (.ok d) tablesFetched dropdown =
      .posted (appjs.addTablePost tableData)
        (.ok ⟨domSet (d.getField "message"), false,
              some (appjs.populateTableDropdown dropdown tablesFetched)⟩) ∧
    ((appjs.addTable tableData (.ok d) tablesFetched dropdown).allRequests.filter
        (fun r => r.method == "POST")) = [appjs.addTablePost tableData] ∧
    (appjs.addTable tableData (.ok d) tablesFetched dropdown).allRequests =
      [appjs.addTablePost tableData, ⟨"GET", "/tables", none, none⟩] ∧
    appjs.addTable tableData (.ok Json.null) tablesFetched dropdown =
      .posted (appjs.addTablePost tableData)
        (.ok ⟨"Error adding table", true, none⟩) := by
  cases d with
  | null => exact absurd rfl hd
  | bool b => exact ⟨rfl, rfl, rfl, rfl⟩
  | num n => exact ⟨rfl, rfl, rfl, rfl⟩
  | str s => exact ⟨rfl, rfl, rfl, rfl⟩
  | arr xs => exact ⟨rfl, rfl, rfl, rfl⟩
  | obj fs => exact ⟨rfl, rfl, rfl, rfl⟩

/-- C1 (witness): the amended claim evaluated at text `"x"` and the response
body `\x7b message: "ok" \x7d`. -/
theorem claim_C1_witness :
    (appjs.addTable "x" (.ok (Json.obj [("message", Json.str "ok")]))
        (.ok []) [] =
      .posted (appjs.addTablePost "x")
        (.ok ⟨domSet ((Json.obj [("message", Json.str "ok")]).getField "message"),
              false, some (appjs.populateTableDropdown [] (.ok []))⟩) ∧
    ((appjs.addTable "x" (.ok (Json.obj [("message", Json.str "ok")]))
        (.ok []) []).allRequests.filter
        (fun r => r.method == "POST")) = [appjs.addTablePost "x"] ∧
    (appjs.addTable "x" (.ok (Json.obj [("message", Json.str "ok")]))
        (.ok []) []).allRequests =
      [appjs.addTablePost "x", ⟨"GET", "/tables", none, none⟩] ∧
    appjs.addTable "x" (.ok Json.null) (.ok []) [] =
      .posted (appjs.addTablePost "x")
        (.ok ⟨"Error adding table", true, none⟩)) :=
  claim_C1 "x" (Json.obj [("message", Json.str "ok")]) (.ok []) []
    (fun h => Json.noConfusion h)

/-- C2 (counterexample): `"x"` is not valid JSON, yet `addTable` still issues
the POST (with the raw string as body) and never renders the invalid-format
message — here, with a rejected fetch, it renders the request-failure
message instead. -/
theorem claim_C2_counterexample :
    parseJson "x" = none ∧
    appjs.addTable "x" (.error ()) (.ok []) [] =
      .posted (appjs.addTablePost "x") (.ok ⟨"Error adding table", true, none⟩) ∧
    (appjs.addTable "x" (.error ()) (.ok []) []).allRequests ≠ [] ∧
    (appjs.addTable "x" (.error ()) (.ok []) []).renderedInvalid = false :=
  ⟨rfl, rfl, by decide, rfl⟩

/-- C2 (amended): for every text that is not valid JSON, `addTable` neither
renders the fixed invalid-format message nor skips the network call: it
issues the same POST with body `\x7b "table": <raw text> \x7d` as for any
other text.  The text is never parsed, so the `catch` branch that would
write `'Invalid format'` is unreachable. -/
theorem claim_C2 (tableData : String) (fetched : Except Unit Json)
    (tablesFetched : Except Unit (List String)) (dropdown : List DropOption)
    (hmalformed : parseJson tableData = none) :
    (appjs.addTable tableData fetched tablesFetched dropdown).renderedInvalid = false ∧
    (appjs.addTable tableData fetched tablesFetched dropdown).allRequests.head? =
      some (appjs.addTablePost tableData) := by
  cases fetched with
  | ok d => cases d <;> exact ⟨rfl, rfl⟩
  | error e => exact ⟨rfl, rfl⟩

/-- C2 (witness): the amended claim evaluated at the malformed text `"x"`
with a rejected fetch. -/
theorem claim_C2_witness :
    (appjs.addTable "x" (.error ()) (.ok []) []).renderedInvalid = false ∧
    (appjs.addTable "x" (.error ()) (.ok []) []).allRequests.head? =
      some (appjs.addTablePost "x") :=
  claim_C2 "x" (.error ()) (.ok []) [] rfl

/-- C3: every entry of a successful table-entries response is rendered as one
row whose roll cell is the single number when `min_roll` equals `max_roll`
and the string `min-max` otherwise; in particular `min_roll = max_roll = 3`
renders `"3"` and `min_roll = 2, max_roll = 5` renders `"2-5"`. -/
theorem claim_C3 (tableName : String) (entries : List TableEntry)
    (rows : List EntryRow) (hname : tableName ≠ "") :
    appjs.fetchTableEntries tableName (.ok entries) rows =
      .fetched ⟨"GET", "/table_entries/" ++ tableName, none, none⟩
        (.ok ⟨entries.map appjs.renderEntry, none, false⟩) ∧
    (∀ e : TableEntry, e.min_roll = e.max_roll →
      (appjs.renderEntry e).rollText = toString e.min_roll) ∧
    (∀ e : TableEntry, e.min_roll ≠ e.max_roll →
      (appjs.renderEntry e).rollText =
        toString e.min_roll ++ "-" ++ toString e.max_roll) ∧
    (appjs.renderEntry ⟨3, 3, Json.str "goblin"⟩).rollText = "3" ∧
    (appjs.renderEntry ⟨2, 5, Json.str "orc"⟩).rollText = "2-5" := by
  refine ⟨?_, ?_, ?_, by decide, by decide⟩
  · simp [appjs.fetchTableEntries, jsTruthy, hname, thenCatch]
  · intro e h; simp [appjs.renderEntry, h]
  · intro e h; simp [appjs.renderEntry, h]

/-- C3 (witness): the claim evaluated at table `"monsters"` and the two
concrete entries of the specification. -/
theorem claim_C3_witness :
    (appjs.fetchTableEntries "monsters"
        (.ok [⟨3, 3, Json.str "goblin"⟩, ⟨2, 5, Json.str "orc"⟩]) [] =
      .fetched ⟨"GET", "/table_entries/" ++ "monsters", none, none⟩
        (.ok ⟨[⟨3, 3, Json.str "goblin"⟩,
               (⟨2, 5, Json.str "orc"⟩ : TableEntry)].map appjs.renderEntry,
              none, false⟩) ∧
    (∀ e : TableEntry, e.min_roll = e.max_roll →
      (appjs.renderEntry e).rollText = toString e.min_roll) ∧
    (∀ e : TableEntry, e.min_roll ≠ e.max_roll →
      (appjs.renderEntry e).rollText =
        toString e.min_roll ++ "-" ++ toString e.max_roll) ∧
    (appjs.renderEntry ⟨3, 3, Json.str "goblin"⟩).rollText = "3" ∧
    (appjs.renderEntry ⟨2, 5, Json.str "orc"⟩).rollText = "2-5") :=
  claim_C3 "monsters" [⟨3, 3, Json.str "goblin"⟩, ⟨2, 5, Json.str "orc"⟩] []
    (by decide)

/-- C4: selecting a table name and drawing issues GET `/draw/<name>`, and a
successful response `\x7b result: v \x7d` writes exactly `Result: <v>` into
the result element. -/
theorem claim_C4 (tableName : String) (v : Json) :
    appjs.drawFromTable tableName (.ok (Json.obj [("result", v)])) =
      (⟨"GET", "/draw/" ++ tableName, none, none⟩,
       .ok ⟨"Result: " ++ jsString v, false⟩) :=
  rfl

/-- C5: `formattedDrawFromTable` has the contract of `drawFromTable` except
for the `/formatted_draw/` path and the `Formatted Result:` prefix; on every
failure — rejected fetch, and also the `TypeError` a `null` body throws at
`data.result` — both settle identically with the same fixed error string and
a log. -/
theorem claim_C5 (tableName : String) (fetched : Except Unit Json) :
    (appjs.formattedDrawFromTable tableName fetched).1 =
      ⟨"GET", "/formatted_draw/" ++ tableName, none, none⟩ ∧
    (appjs.drawFromTable tableName fetched).1 =
      ⟨"GET", "/draw/" ++ tableName, none, none⟩ ∧
    (∀ d : Json, d ≠ Json.null →
      (appjs.formattedDrawFromTable tableName (.ok d)).2 =
        .ok ⟨"Formatted Result: " ++ tmpl (d.getField "result"), false⟩ ∧
      (appjs.drawFromTable tableName (.ok d)).2 =
        .ok ⟨"Result: " ++ tmpl (d.getField "result"), false⟩) ∧
    (appjs.formattedDrawFromTable tableName (.ok Json.null)).2 =
      (appjs.drawFromTable tableName (.ok Json.null)).2 ∧
    (appjs.formattedDrawFromTable tableName (.ok Json.null)).2 =
      .ok ⟨"Error fetching data", true⟩ ∧
    (appjs.formattedDrawFromTable tableName (.error ())).2 =
      (appjs.drawFromTable tableName (.error ())).2 := by
  refine ⟨rfl, rfl, fun d hd => ?_, rfl, rfl, rfl⟩
  cases d with
  | null => exact absurd rfl hd
  | bool b => exact ⟨rfl, rfl⟩
  | num n => exact ⟨rfl, rfl⟩
  | str s => exact ⟨rfl, rfl⟩
  | arr xs => exact ⟨rfl, rfl⟩
  | obj fs => exact ⟨rfl, rfl⟩

/-- C5 (witness): the claim evaluated at table `"monsters"` with a rejected
fetch, and its success conjunct at the body `\x7b result: 7 \x7d`. -/
theorem claim_C5_witness :
    (appjs.formattedDrawFromTable "monsters"
        (.ok (Json.obj [("result", Json.num 7)]))).2 =
      .ok ⟨"Formatted Result: " ++
            tmpl ((Json.obj [("result", Json.num 7)]).getField "result"),
           false⟩ ∧
    (appjs.drawFromTable "monsters"
        (.ok (Json.obj [("result", Json.num 7)]))).2 =
      .ok ⟨"Result: " ++
            tmpl ((Json.obj [("result", Json.num 7)]).getField "result"),
           false⟩ :=
  (claim_C5 "monsters" (.error ())).2.2.1 (Json.obj [("result", Json.num 7)])
    (fun h => Json.noConfusion h)

/-- C6: on a rejected fetch (or a response-parse failure folded into it) each
of the four triggers settles fulfilled — no exception escapes the handler —
writing its fixed error string into the page and logging the error. -/
theorem claim_C6 (tableName tableData : String) (dropdown : List DropOption)
    (tablesFetched : Except Unit (List String)) (rows : List EntryRow)
    (hname : tableName ≠ "") :
    (appjs.drawFromTable tableName (.error ())).2 =
      .ok ⟨"Error fetching data", true⟩ ∧
    (appjs.formattedDrawFromTable tableName (.error ())).2 =
      .ok ⟨"Error fetching data", true⟩ ∧
    appjs.addTable tableData (.error ()) tablesFetched dropdown =
      .posted (appjs.addTablePost tableData)
        (.ok ⟨"Error adding table", true, none⟩) ∧
    appjs.fetchTableEntries tableName (.error ()) rows =
      .fetched ⟨"GET", "/table_entries/" ++ tableName, none, none⟩
        (.ok ⟨rows, some "Error fetching data", true⟩) := by
  refine ⟨rfl, rfl, rfl, ?_⟩
  simp [appjs.fetchTableEntries, jsTruthy, hname, thenCatch]

/-- C6 (witness): the claim evaluated at table `"monsters"`, form text `"x"`,
an empty dropdown and empty entry table. -/
theorem claim_C6_witness :
    ((appjs.drawFromTable "monsters" (.error ())).2 =
      .ok ⟨"Error fetching data", true⟩ ∧
    (appjs.formattedDrawFromTable "monsters" (.error ())).2 =
      .ok ⟨"Error fetching data", true⟩ ∧
    appjs.addTable "x" (.error ()) (.ok []) [] =
      .posted (appjs.addTablePost "x")
        (.ok ⟨"Error adding table", true, none⟩) ∧
    appjs.fetchTableEntries "monsters" (.error ()) [] =
      .fetched ⟨"GET", "/table_entries/" ++ "monsters", none, none⟩
        (.ok ⟨[], some "Error fetching data", true⟩)) :=
  claim_C6 "monsters" "x" [] (.ok []) [] (by decide)

/-- C7: a successful `/tables` fetch replaces the dropdown wholesale — the
result does not depend on the previous options — with exactly the returned
names (here sorted), each option's text equal to its value. -/
theorem claim_C7 (tables : List String) (d1 d2 : List DropOption) :
    appjs.populateTableDropdown d1 (.ok tables) =
      (⟨"GET", "/tables", none, none⟩,
       .ok ⟨(List.mergeSort tables jsLeb).map (fun t => ⟨t, t⟩), false⟩) ∧
    appjs.populateTableDropdown d1 (.ok tables) =
      appjs.populateTableDropdown d2 (.ok tables) ∧
    ((chainDropdown (appjs.populateTableDropdown d1 (.ok tables)).2).map
        DropOption.value).Perm tables ∧
    (chainDropdown (appjs.populateTableDropdown d1 (.ok tables)).2).map
        DropOption.text =
      (chainDropdown (appjs.populateTableDropdown d1 (.ok tables)).2).map
        DropOption.value := by
  have hval : (DropOption.value ∘ fun t : String => (⟨t, t⟩ : DropOption)) =
      fun t => t := rfl
  have htext : (DropOption.text ∘ fun t : String => (⟨t, t⟩ : DropOption)) =
      fun t => t := rfl
  refine ⟨rfl, rfl, ?_, ?_⟩
  · simp only [chainDropdown, appjs.populateTableDropdown, thenCatch,
      List.map_map, hval, List.map_id']
    exact List.mergeSort_perm tables jsLeb
  · simp only [chainDropdown, appjs.populateTableDropdown, thenCatch,
      List.map_map, hval, htext]

/-- C8: the two revisions' `populateTableDropdown` functions build the same
multiset of options; the `src/static/app.js` revision renders them sorted in
the JavaScript string order while `src/unnamed/part_000` keeps server order;
the other shared handlers are behaviourally identical, `addTable` up to the
refresh invoking the revision's own dropdown population. -/
theorem claim_C8 (tables : List String) (d1 d2 : List DropOption)
    (tableName tableData : String) (fetched : Except Unit Json)
    (tablesFetched : Except Unit (List String)) :
    (chainDropdown (appjs.populateTableDropdown d1 (.ok tables)).2).Perm
      (chainDropdown (part000.populateTableDropdown d2 (.ok tables)).2) ∧
    List.Pairwise (fun a b : DropOption => jsLeb a.value b.value = true)
      (chainDropdown (appjs.populateTableDropdown d1 (.ok tables)).2) ∧
    chainDropdown (part000.populateTableDropdown d2 (.ok tables)).2 =
      tables.map (fun t => ⟨t, t⟩) ∧
    appjs.drawFromTable tableName fetched =
      part000.drawFromTable tableName fetched ∧
    appjs.formattedDrawFromTable tableName fetched =
      part000.formattedDrawFromTable tableName fetched ∧
    appjs.addTable tableData (.error ()) tablesFetched d1 =
      part000.addTable tableData (.error ()) tablesFetched d1 ∧
    appjs.addTable tableData (.ok Json.null) tablesFetched d1 =
      part000.addTable tableData (.ok Json.null) tablesFetched d1 ∧
    (∀ d : Json, d ≠ Json.null →
      appjs.addTable tableData (.ok d) tablesFetched d1 =
        .posted (appjs.addTablePost tableData)
          (.ok ⟨domSet (d.getField "message"), false,
                some (appjs.populateTableDropdown d1 tablesFetched)⟩) ∧
      part000.addTable tableData (.ok d) tablesFetched d1 =
        .posted (appjs.addTablePost tableData)
          (.ok ⟨domSet (d.getField "message"), false,
                some (part000.populateTableDropdown d1 tablesFetched)⟩)) := by
  refine ⟨?_, ?_, rfl, rfl, rfl, rfl, rfl, fun d hd => ?_⟩
  · have h := (List.mergeSort_perm tables jsLeb).map
      (fun t => (⟨t, t⟩ : DropOption))
    simpa [chainDropdown, appjs.populateTableDropdown,
      part000.populateTableDropdown, thenCatch] using h
  · have h := @List.sorted_mergeSort String jsLeb jsLeb_trans jsLeb_total tables
    simp only [chainDropdown, appjs.populateTableDropdown, thenCatch]
    exact (List.pairwise_map).mpr h
  · cases d with
    | null => exact absurd rfl hd
    | bool b => exact ⟨rfl, rfl⟩
    | num n => exact ⟨rfl, rfl⟩
    | str s => exact ⟨rfl, rfl⟩
    | arr xs => exact ⟨rfl, rfl⟩
    | obj fs => exact ⟨rfl, rfl⟩

/-- C8 (witness): the success-response conjunct of the claim evaluated at
text `"x"`, body `\x7b message: "ok" \x7d`, an empty dropdown and the
`/tables` response `[]`. -/
theorem claim_C8_witness :
    (appjs.addTable "x" (.ok (Json.obj [("message", Json.str "ok")]))
        (.ok []) [] =
      .posted (appjs.addTablePost "x")
        (.ok ⟨domSet ((Json.obj [("message", Json.str "ok")]).getField "message"),
              false, some (appjs.populateTableDropdown [] (.ok []))⟩) ∧
    part000.addTable "x" (.ok (Json.obj [("message", Json.str "ok")]))
        (.ok []) [] =
      .posted (appjs.addTablePost "x")
        (.ok ⟨domSet ((Json.obj [("message", Json.str "ok")]).getField "message"),
              false, some (part000.populateTableDropdown [] (.ok []))⟩)) :=
  (claim_C8 [] [] [] "monsters" "x" (.error ()) (.ok [])).2.2.2.2.2.2.2
    (Json.obj [("message", Json.str "ok")]) (fun h => Json.noConfusion h)

/-- C9: when the `/tables` fetch rejects (network error or unparsable
response), `populateTableDropdown` of either revision leaves the dropdown's
option list unchanged and only logs — the clearing happens inside the
fulfilled continuation, so a failed refresh is atomic for the dropdown. -/
theorem claim_C9 (dropdown : List DropOption) :
    appjs.populateTableDropdown dropdown (.error ()) =
      (⟨"GET", "/tables", none, none⟩, .ok ⟨dropdown, true⟩) ∧
    part000.populateTableDropdown dropdown (.error ()) =
      (⟨"GET", "/tables", none, none⟩, .ok ⟨dropdown, true⟩) :=
  ⟨rfl, rfl⟩

/-- C10: with the empty table name, `fetchTableEntries` issues no request and
leaves the entry rows unchanged, while `drawFromTable` and
`formattedDrawFromTable` have no such guard and still issue GETs to `/draw/`
and `/formatted_draw/`. -/
theorem claim_C10 (fetched : Except Unit (List TableEntry))
    (rows : List EntryRow) (f2 f3 : Except Unit Json) :
    appjs.fetchTableEntries "" fetched rows = .skipped rows ∧
    (appjs.fetchTableEntries "" fetched rows).requests = [] ∧
    (appjs.drawFromTable "" f2).1 = ⟨"GET", "/draw/", none, none⟩ ∧
    (appjs.formattedDrawFromTable "" f3).1 =
      ⟨"GET", "/formatted_draw/", none, none⟩ :=
  ⟨rfl, rfl, rfl, rfl⟩
